import Mathlib

/-!
Shallow embedding of the quantum-control layer in `QuantumComputerFull.cpp`
(class `QuantumComputer`) and in the unnamed multi-module variant
(`QuantumModule` / `QuantumSupercomputer`).

Modelling conventions:
* Hardware Port calls (`HardwareInterface::calibrate`, `sendPulse`,
  `sendTwoQubitPulse`) are recorded as an explicit trace of `HwEvent`s in the
  order the source issues them.  For `applyGateParallel` the C++ source spawns
  one thread per target and joins them all; thread interleaving permutes the
  trace but never changes the per-unit multiset of events, so the embedding
  lists each target's events in target order and all claims about the parallel
  path count events per unit, which is interleaving-invariant.
* The audit log (the `log(...)` JSON appends of `QuantumComputerFull.cpp`) is
  recorded as a trace of `LogRecord`s.  The multi-module file contains no log
  call at all, so every operation of that file has an empty log trace.
* `HardwareInterface::readState` returns `rand() % 2`: a process-wide stream
  of bits.  The embedding takes the stream as an oracle `env : Nat → Bool`
  together with a threaded call counter `k`, consuming `env k` at the k-th
  `rand()` call.
* Machine integers are modelled as `Nat`; the readout bits are `0`/`1` by
  construction (`rand() % 2`), and every quantity counted is non-negative.
* `std::vector<bool> calibrated` is a `List Bool`.  The C++ source indexes it
  with unchecked `operator[]`; an out-of-range access is undefined behaviour
  in the source.  An out-of-range read is modelled by `List.getD _ _ false`
  and an out-of-range write by `List.set` (a no-op out of range); theorems
  about out-of-range indices only use facts that hold before the undefined
  access happens (in `calibrateQubit` the hardware call precedes the write).
* `std::vector<QuantumModule*> modules` indexed by unchecked `operator[]` is
  modelled with `List.get?`; the out-of-range case (undefined behaviour in
  the source, no check of any kind in the code) makes the operation return
  `none`.
-/

namespace QCF

/-- Hardware Port calls of `QuantumComputerFull.cpp` (`HardwareInterface`). -/
inductive HwEvent where
  | calibrate (q : Nat)
  | pulse (q : Nat) (gate : String)
  | twoQubitPulse (q1 q2 : Nat) (gate : String)
deriving Repr, DecidableEq

/-- Audit-log records appended by `QuantumComputer::log`, keeping the fields
the source serialises into each JSON object. -/
inductive LogRecord where
  | calibrate (q : Nat)
  | gate (g : String) (qs : List Nat)
  | twoQubitGate (g : String) (q1 q2 : Nat)
  | measurePhysical (qs : List Nat) (shots : Nat)
  | measureLogical (qs : List Nat) (shots : Nat)
deriving Repr, DecidableEq

/-- State of class `QuantumComputer`: the unit count and the calibration
flags (`std::vector<bool> calibrated`, constructed as `calibrated(n,false)`). -/
structure QuantumComputer where
  num_qubits : Nat
  calibrated : List Bool
deriving Repr, DecidableEq

/-- The constructor `QuantumComputer(int n=100)`. -/
def QuantumComputer.init (n : Nat) : QuantumComputer :=
  { num_qubits := n, calibrated := List.replicate n false }

/-- Reading `calibrated[q]` (out of range this read is undefined behaviour in
the source; the model returns `false` there). -/
def QuantumComputer.flag (c : QuantumComputer) (q : Nat) : Bool :=
  c.calibrated.getD q false

/-- Method `QuantumComputer::calibrateQubit`: hardware calibrate, then
`calibrated[q] = true`, then one audit record.  The source performs no range
check; for `q` outside the flag vector the write is undefined behaviour
(modelled as a no-op) but the hardware call and the log append still happen
before/after it unconditionally. -/
def QuantumComputer.calibrateQubit (c : QuantumComputer) (q : Nat) :
    QuantumComputer × List HwEvent × List LogRecord :=
  ({ c with calibrated := c.calibrated.set q true },
   [HwEvent.calibrate q], [LogRecord.calibrate q])

/-- Body of the per-target thread in `QuantumComputer::applyGateParallel`:
`if (calibrated[q]) { sendPulse(q, gate); log({action: gate, ...}); }`. -/
def dispatchOne (c : QuantumComputer) (g : String) (q : Nat) :
    List HwEvent × List LogRecord :=
  if c.flag q then ([HwEvent.pulse q g], [LogRecord.gate g [q]]) else ([], [])

/-- Hardware events of all the threads `applyGateParallel` spawns, in target
order (per-unit counts are interleaving-invariant, see the file comment). -/
def gateDispatchEvents (c : QuantumComputer) (g : String) : List Nat → List HwEvent
  | [] => []
  | q :: rest => (dispatchOne c g q).1 ++ gateDispatchEvents c g rest

/-- Audit records of all the threads `applyGateParallel` spawns. -/
def gateDispatchLogs (c : QuantumComputer) (g : String) : List Nat → List LogRecord
  | [] => []
  | q :: rest => (dispatchOne c g q).2 ++ gateDispatchLogs c g rest

/-- Method `QuantumComputer::applyGateParallel`: spawn one dispatch per target,
join all threads before returning.  No field of the object is written. -/
def QuantumComputer.applyGateParallel (c : QuantumComputer) (g : String)
    (qubits : List Nat) : QuantumComputer × List HwEvent × List LogRecord :=
  (c, gateDispatchEvents c g qubits, gateDispatchLogs c g qubits)

/-- Method `QuantumComputer::applyTwoQubitGate`: one two-unit pulse and one audit
record when both flags are set, otherwise nothing at all. -/
def QuantumComputer.applyTwoQubitGate (c : QuantumComputer) (g : String)
    (q1 q2 : Nat) : QuantumComputer × List HwEvent × List LogRecord :=
  if c.flag q1 && c.flag q2 then
    (c, [HwEvent.twoQubitPulse q1 q2 g], [LogRecord.twoQubitGate g q1 q2])
  else
    (c, [], [])

/-- One `rand() % 2` readout (`HardwareInterface::readState`): the bit at the
current position of the process-wide stream, and the advanced counter. -/
def readState (env : Nat → Bool) (k : Nat) : Nat × Nat :=
  ((if env k then 1 else 0), k + 1)

/-- Inner loop of one shot of `measurePhysical`: for each requested unit read
one bit and bump that unit's "0" or "1" bucket (`results[q][to_string(val)]++`).
The histogram is the map `unit ↦ (count of "0", count of "1")`. -/
def physShot (env : Nat → Bool) : List Nat → Nat → (Nat → Nat × Nat) →
    (Nat → Nat × Nat) × Nat
  | [], k, res => (res, k)
  | q :: rest, k, res =>
      let r := readState env k
      physShot env rest r.2 (fun u =>
        if u = q then
          (if r.1 = 1 then ((res q).1, (res q).2 + 1) else ((res q).1 + 1, (res q).2))
        else res u)

/-- Shot loop of `measurePhysical` (`for(int s=0;s<shots;s++)`). -/
def physLoop (env : Nat → Bool) (qubits : List Nat) :
    Nat → Nat → (Nat → Nat × Nat) → (Nat → Nat × Nat) × Nat
  | 0, k, res => (res, k)
  | s + 1, k, res =>
      let r := physShot env qubits k res
      physLoop env qubits s r.2 r.1

/-- Method `QuantumComputer::measurePhysical`: zero-initialise the requested units'
buckets, run `shots` trials, append one aggregate audit record.  Returns the
state (untouched by the source), the histogram, the log trace and the
advanced readout counter. -/
def QuantumComputer.measurePhysical (c : QuantumComputer) (env : Nat → Bool)
    (qubits : List Nat) (shots : Nat) (k0 : Nat) :
    QuantumComputer × (Nat → Nat × Nat) × List LogRecord × Nat :=
  let r := physLoop env qubits shots k0 (fun _ => (0, 0))
  (c, r.1, [LogRecord.measurePhysical qubits shots], r.2)

/-- The corrected-bit computation inside `measureLogical` (both files contain
the identical two lines): `sum > group.size()/2 ? 1 : 0` with C++ integer
division. -/
def correctedBit (votes : List Nat) : Nat :=
  if votes.length / 2 < votes.sum then 1 else 0

/-- The per-shot vote collection of `measureLogical`: one readout per unit of
the group, in group order. -/
def readVotes (env : Nat → Bool) : List Nat → Nat → List Nat × Nat
  | [], k => ([], k)
  | _ :: rest, k =>
      let r := readState env k
      let rs := readVotes env rest r.2
      (r.1 :: rs.1, rs.2)

/-- Shot loop of `measureLogical`: read the group's votes, decode with
`correctedBit`, bump the "0" or "1" bucket (`res = (count of "0", count of
"1")`). -/
def logicalLoop (env : Nat → Bool) (group : List Nat) :
    Nat → Nat → Nat × Nat → (Nat × Nat) × Nat
  | 0, k, res => (res, k)
  | s + 1, k, res =>
      let r := readVotes env group k
      let res' := if correctedBit r.1 = 1 then (res.1, res.2 + 1)
                  else (res.1 + 1, res.2)
      logicalLoop env group s r.2 res'

/-- Method `QuantumComputer::measureLogical`: `shots` decode trials into a `{0,1}`
histogram, then one aggregate audit record. -/
def QuantumComputer.measureLogical (c : QuantumComputer) (env : Nat → Bool)
    (group : List Nat) (shots : Nat) (k0 : Nat) :
    QuantumComputer × (Nat × Nat) × List LogRecord × Nat :=
  let r := logicalLoop env group shots k0 (0, 0)
  (c, r.1, [LogRecord.measureLogical group shots], r.2)

/-- Contribution of one hardware event to the count of single-unit pulses on
unit `u` (1 for a pulse on `u`, 0 for anything else). -/
def pulseHit (u : Nat) : HwEvent → Nat
  | HwEvent.pulse q _ => if q = u then 1 else 0
  | _ => 0

/-- Occurrences of a single-unit pulse on unit `u` in a hardware trace. -/
def countPulses (tr : List HwEvent) (u : Nat) : Nat := (tr.map (pulseHit u)).sum

/-- Contribution of one audit record to the count of single-unit gate records
mentioning unit `u`. -/
def gateLogHit (u : Nat) : LogRecord → Nat
  | LogRecord.gate _ qs => if u ∈ qs then 1 else 0
  | _ => 0

/-- Occurrences of a single-unit gate audit record mentioning unit `u`. -/
def countGateLogs (tr : List LogRecord) (u : Nat) : Nat :=
  (tr.map (gateLogHit u)).sum

end QCF

namespace QS

/-- Hardware Port calls of the multi-module file: every call carries the
module identifier (`HardwareInterface::calibrate(q, moduleID)` etc.). -/
inductive MEvent where
  | calibrate (q m : Nat)
  | pulse (q : Nat) (gate : String) (m : Nat)
  | twoQubitPulse (q1 m1 q2 m2 : Nat) (gate : String)
deriving Repr, DecidableEq

/-- Audit records of the multi-module file.  The file contains no `log` call
of any kind, so no operation ever appends one; the type records what a
two-unit gate record would carry. -/
inductive MLogRecord where
  | twoQubitGate (g : String) (q1 q2 : Nat)
deriving Repr, DecidableEq

/-- State of class `QuantumModule` (`moduleID`, `num_qubits`, the
`std::vector<bool> calibrated` built as `calibrated(n,false)`). -/
structure QuantumModule where
  moduleID : Nat
  num_qubits : Nat
  calibrated : List Bool
deriving Repr, DecidableEq

/-- Reading `calibrated[q]` on a module (out of range: undefined behaviour in
the source, `false` in the model). -/
def QuantumModule.flag (m : QuantumModule) (q : Nat) : Bool :=
  m.calibrated.getD q false

/-- Method `QuantumModule::calibrateQubit`: hardware calibrate then
`calibrated[q] = true`; no range check, no log call. -/
def QuantumModule.calibrateQubit (m : QuantumModule) (q : Nat) :
    QuantumModule × List MEvent × List MLogRecord :=
  ({ m with calibrated := m.calibrated.set q true },
   [MEvent.calibrate q m.moduleID], [])

/-- Method `QuantumModule::applyGate`: `if(calibrated[q]) sendPulse(q, gate,
moduleID);` — sequential single-target dispatch, no log call. -/
def QuantumModule.applyGate (m : QuantumModule) (g : String) (q : Nat) :
    List MEvent × List MLogRecord :=
  if m.flag q then ([MEvent.pulse q g m.moduleID], []) else ([], [])

/-- Method `QuantumModule::applyTwoQubitGate`: one two-unit pulse when both flags
are set, nothing otherwise; the file never logs. -/
def QuantumModule.applyTwoQubitGate (m : QuantumModule) (q1 q2 : Nat)
    (g : String) : List MEvent × List MLogRecord :=
  if m.flag q1 && m.flag q2 then
    ([MEvent.twoQubitPulse q1 m.moduleID q2 m.moduleID g], [])
  else ([], [])

/-- Method `QuantumModule::measureLogical`: the same vote/decode loop as
`QuantumComputerFull.cpp` (lines 70–71 of the file compute the identical
`sum > qubits.size()/2 ? 1 : 0`), reading through the module's hardware
readout.  Returns the `{0,1}` histogram and the advanced readout counter. -/
def QuantumModule.measureLogical (_ : QuantumModule) (env : Nat → Bool)
    (qubits : List Nat) (shots : Nat) (k0 : Nat) : (Nat × Nat) × Nat :=
  QCF.logicalLoop env qubits shots k0 (0, 0)

/-- State of class `QuantumSupercomputer`: the registered modules, in
registration order (`std::vector<QuantumModule*> modules`). -/
structure QuantumSupercomputer where
  modules : List QuantumModule
deriving Repr, DecidableEq

/-- Method `QuantumSupercomputer::addModule`: push the module at the back. -/
def QuantumSupercomputer.addModule (sc : QuantumSupercomputer)
    (m : QuantumModule) : QuantumSupercomputer :=
  { modules := sc.modules ++ [m] }

/-- Method `QuantumSupercomputer::applyGate`: `modules[moduleID]->applyGate(gate,q)`.
The source indexes the module vector with unchecked `operator[]` and performs
no validation of `moduleID`; an out-of-range identifier is undefined
behaviour, modelled as `none`.  No error value of any kind exists in the
source. -/
def QuantumSupercomputer.applyGate (sc : QuantumSupercomputer)
    (moduleID : Nat) (g : String) (q : Nat) :
    Option (QuantumSupercomputer × List MEvent × List MLogRecord) :=
  match sc.modules.get? moduleID with
  | some m => some (sc, m.applyGate g q)
  | none => none

/-- Method `QuantumSupercomputer::applyTwoQubitGate` (cross-module): routes straight
to `HardwareInterface::sendTwoQubitPulse(q1,module1,q2,module2,gate)`.  It
reads neither module vector nor any calibration flag. -/
def QuantumSupercomputer.applyTwoQubitGate (_ : QuantumSupercomputer)
    (module1 q1 module2 q2 : Nat) (g : String) :
    List MEvent × List MLogRecord :=
  ([MEvent.twoQubitPulse q1 module1 q2 module2 g], [])

/-- Method `QuantumSupercomputer::measureLogical`:
`modules[moduleID]->measureLogical(qubits, shots)` with the same unchecked
indexing as `applyGate` (out of range: undefined behaviour, `none`). -/
def QuantumSupercomputer.measureLogical (sc : QuantumSupercomputer)
    (env : Nat → Bool) (moduleID : Nat) (qubits : List Nat) (shots : Nat)
    (k0 : Nat) : Option ((Nat × Nat) × Nat) :=
  match sc.modules.get? moduleID with
  | some m => some (m.measureLogical env qubits shots k0)
  | none => none

end QS

/-! ### Helper lemmas -/

theorem getD_set_self (l : List Bool) (i : Nat) (a d : Bool) (h : i < l.length) :
    (l.set i a).getD i d = a := by
  simp [List.getD, List.getElem?_set_eq_of_lt _ h]

theorem getD_set_other (l : List Bool) (i j : Nat) (a d : Bool) (h : j ≠ i) :
    (l.set i a).getD j d = l.getD j d := by
  simp [List.getD, List.getElem?_set_ne (fun hh => h hh.symm)]

theorem countPulses_append (a b : List QCF.HwEvent) (u : Nat) :
    QCF.countPulses (a ++ b) u = QCF.countPulses a u + QCF.countPulses b u := by
  simp [QCF.countPulses]

theorem countGateLogs_append (a b : List QCF.LogRecord) (u : Nat) :
    QCF.countGateLogs (a ++ b) u = QCF.countGateLogs a u + QCF.countGateLogs b u := by
  simp [QCF.countGateLogs]

theorem countPulses_dispatchOne (c : QCF.QuantumComputer) (g : String) (q u : Nat) :
    QCF.countPulses (QCF.dispatchOne c g q).1 u =
      if q = u then (if c.flag q then 1 else 0) else 0 := by
  unfold QCF.dispatchOne
  by_cases hq : q = u
  · subst hq
    by_cases hf : c.flag q <;> simp [hf, QCF.countPulses, QCF.pulseHit]
  · by_cases hf : c.flag q <;> simp [hf, hq, QCF.countPulses, QCF.pulseHit]

theorem countGateLogs_dispatchOne (c : QCF.QuantumComputer) (g : String) (q u : Nat) :
    QCF.countGateLogs (QCF.dispatchOne c g q).2 u =
      if q = u then (if c.flag q then 1 else 0) else 0 := by
  unfold QCF.dispatchOne
  by_cases hq : q = u
  · subst hq
    by_cases hf : c.flag q <;> simp [hf, QCF.countGateLogs, QCF.gateLogHit]
  · by_cases hf : c.flag q <;>
      simp [hf, hq, Ne.symm hq, QCF.countGateLogs, QCF.gateLogHit]

theorem countPulses_gateDispatchEvents (c : QCF.QuantumComputer) (g : String)
    (u : Nat) : ∀ qs : List Nat,
    QCF.countPulses (QCF.gateDispatchEvents c g qs) u =
      qs.count u * (if c.flag u then 1 else 0)
  | [] => by simp [QCF.gateDispatchEvents, QCF.countPulses]
  | q :: rest => by
      rw [QCF.gateDispatchEvents, countPulses_append, countPulses_dispatchOne,
        countPulses_gateDispatchEvents c g u rest]
      by_cases hq : q = u
      · subst hq
        by_cases hf : c.flag q <;> simp [List.count_cons, hf] <;> omega
      · simp [List.count_cons, hq]

theorem countGateLogs_gateDispatchLogs (c : QCF.QuantumComputer) (g : String)
    (u : Nat) : ∀ qs : List Nat,
    QCF.countGateLogs (QCF.gateDispatchLogs c g qs) u =
      qs.count u * (if c.flag u then 1 else 0)
  | [] => by simp [QCF.gateDispatchLogs, QCF.countGateLogs]
  | q :: rest => by
      rw [QCF.gateDispatchLogs, countGateLogs_append, countGateLogs_dispatchOne,
        countGateLogs_gateDispatchLogs c g u rest]
      by_cases hq : q = u
      · subst hq
        by_cases hf : c.flag q <;> simp [List.count_cons, hf] <;> omega
      · simp [List.count_cons, hq]

theorem logicalLoop_sum (env : Nat → Bool) (group : List Nat) :
    ∀ (s k : Nat) (res : Nat × Nat),
    ((QCF.logicalLoop env group s k res).1).1 +
      ((QCF.logicalLoop env group s k res).1).2 = res.1 + res.2 + s
  | 0, _, res => by simp [QCF.logicalLoop]
  | s + 1, k, res => by
      have ih := logicalLoop_sum env group s
      simp only [QCF.logicalLoop]
      rw [ih]
      by_cases hbit : QCF.correctedBit (QCF.readVotes env group k).1 = 1 <;>
        simp [hbit] <;> omega

theorem physShot_sum (env : Nat → Bool) (u : Nat) :
    ∀ (qubits : List Nat) (k : Nat) (res : Nat → Nat × Nat),
    ((QCF.physShot env qubits k res).1 u).1 + ((QCF.physShot env qubits k res).1 u).2
      = (res u).1 + (res u).2 + qubits.count u
  | [], _, res => by simp [QCF.physShot]
  | q :: rest, k, res => by
      have ih := physShot_sum env u rest
      simp only [QCF.physShot]
      rw [ih]
      by_cases hq : u = q
      · subst hq
        by_cases hv : (QCF.readState env k).1 = 1 <;>
          simp [hv, List.count_cons] <;> omega
      · simp [hq, List.count_cons, Ne.symm hq]

theorem physLoop_sum (env : Nat → Bool) (qubits : List Nat) (u : Nat) :
    ∀ (s k : Nat) (res : Nat → Nat × Nat),
    ((QCF.physLoop env qubits s k res).1 u).1 + ((QCF.physLoop env qubits s k res).1 u).2
      = (res u).1 + (res u).2 + s * qubits.count u
  | 0, _, res => by simp [QCF.physLoop]
  | s + 1, k, res => by
      have ih := physLoop_sum env qubits u s
      simp only [QCF.physLoop]
      rw [ih, physShot_sum env u qubits]
      ring

/-! ### Claims -/

/-- C1: the corrected-bit computation inside `measureLogical` is strict
majority vote: for a sequence of `k` bits it returns 1 exactly when the sum
of the bits is strictly greater than `k/2` under integer (floor) division and
0 otherwise; a tie (`2*sum = k`, only possible for even `k`) decodes to 0; a
single shot of the `measureLogical` loop buckets exactly the decoded bit; and
the enumerated `k = 3` and `k = 4` inputs decode as the spec lists them. -/
theorem C1_decoder_strict_majority :
    (∀ votes : List Nat,
        (QCF.correctedBit votes = 1 ↔ votes.length / 2 < votes.sum) ∧
        (QCF.correctedBit votes = 0 ↔ votes.sum ≤ votes.length / 2) ∧
        (2 * votes.sum = votes.length → QCF.correctedBit votes = 0)) ∧
    (∀ (env : Nat → Bool) (group : List Nat) (k : Nat),
        (QCF.logicalLoop env group 1 k (0, 0)).1 =
          if QCF.correctedBit (QCF.readVotes env group k).1 = 1 then (0, 1)
          else (1, 0)) ∧
    QCF.correctedBit [0, 0, 0] = 0 ∧ QCF.correctedBit [1, 0, 0] = 0 ∧
    QCF.correctedBit [1, 1, 1] = 1 ∧ QCF.correctedBit [1, 1, 0] = 1 ∧
    QCF.correctedBit [0, 1, 1] = 1 ∧
    QCF.correctedBit [1, 1, 0, 0] = 0 ∧ QCF.correctedBit [1, 1, 1, 0] = 1 := by
  refine ⟨fun votes => ?_, fun env group k => ?_, by decide, by decide,
    by decide, by decide, by decide, by decide, by decide⟩
  · unfold QCF.correctedBit
    refine ⟨?_, ?_, ?_⟩ <;> split <;> (try simp_all) <;> omega
  · rw [show (1 : Nat) = 0 + 1 from rfl]
    simp only [QCF.logicalLoop]

/-- C2: a single-unit gate application skips an uncalibrated target silently:
`applyGateParallel` issues zero pulses and zero audit records for that unit
and leaves the object's state untouched, and the sequential
`QuantumModule::applyGate` on that unit produces nothing at all.  Both
embedded operations are total functions into traces, so no error is raised. -/
theorem C2_uncalibrated_target_skipped (c : QCF.QuantumComputer)
    (m : QS.QuantumModule) (g : String) (qs : List Nat) (u : Nat)
    (hc : c.flag u = false) (hm : m.flag u = false) :
    QCF.countPulses (c.applyGateParallel g qs).2.1 u = 0 ∧
    QCF.countGateLogs (c.applyGateParallel g qs).2.2 u = 0 ∧
    (c.applyGateParallel g qs).1 = c ∧
    m.applyGate g u = ([], []) := by
  refine ⟨?_, ?_, rfl, ?_⟩
  · rw [QCF.QuantumComputer.applyGateParallel]
    rw [countPulses_gateDispatchEvents c g u qs, hc]
    simp
  · rw [QCF.QuantumComputer.applyGateParallel]
    rw [countGateLogs_gateDispatchLogs c g u qs, hc]
    simp
  · rw [QS.QuantumModule.applyGate, hm]
    simp

/-- C2 witness: an uncalibrated unit 0 on a fresh one-unit computer and a
fresh one-unit module is skipped silently. -/
theorem C2_witness :
    QCF.countPulses ((QCF.QuantumComputer.init 1).applyGateParallel "H" [0]).2.1 0 = 0 ∧
    QCF.countGateLogs ((QCF.QuantumComputer.init 1).applyGateParallel "H" [0]).2.2 0 = 0 ∧
    ((QCF.QuantumComputer.init 1).applyGateParallel "H" [0]).1 = QCF.QuantumComputer.init 1 ∧
    (QS.QuantumModule.mk 0 1 [false]).applyGate "H" 0 = ([], []) :=
  C2_uncalibrated_target_skipped (QCF.QuantumComputer.init 1)
    (QS.QuantumModule.mk 0 1 [false]) "H" [0] 0 rfl rfl

/-- C3 counterexample: on the multi-module variant (`QuantumModule` of the
unnamed file) a two-unit gate on two calibrated units issues its pulse but
appends no audit record at all, so "exactly one pulse call and exactly one
audit record iff both units are calibrated" is false there. -/
theorem C3_counterexample :
    ((((QS.QuantumModule.mk 0 2 [true, true]).applyTwoQubitGate 0 1 "CNOT").1.length = 1 ∧
      ((QS.QuantumModule.mk 0 2 [true, true]).applyTwoQubitGate 0 1 "CNOT").2.length = 1) ↔
        ((QS.QuantumModule.mk 0 2 [true, true]).flag 0 = true ∧
         (QS.QuantumModule.mk 0 2 [true, true]).flag 1 = true)) ↔ False := by
  decide

/-- C3 (amended): on `QuantumComputer` (QuantumComputerFull.cpp) a two-unit
gate produces exactly one two-unit pulse and exactly one audit record iff
both units are calibrated, and zero of each otherwise; on the multi-module
`QuantumModule` it produces exactly one pulse iff both units are calibrated
and never appends an audit record (that file has no logging).  No error is
raised in any case (the operations are total). -/
theorem C3_two_qubit_gate_all_or_nothing (c : QCF.QuantumComputer)
    (m : QS.QuantumModule) (g : String) (q1 q2 : Nat) :
    (((c.applyTwoQubitGate g q1 q2).2.1.length = 1 ∧
      (c.applyTwoQubitGate g q1 q2).2.2.length = 1) ↔
        (c.flag q1 = true ∧ c.flag q2 = true)) ∧
    (c.applyTwoQubitGate g q1 q2).2.1.length =
      (if c.flag q1 && c.flag q2 then 1 else 0) ∧
    (c.applyTwoQubitGate g q1 q2).2.2.length =
      (if c.flag q1 && c.flag q2 then 1 else 0) ∧
    (m.applyTwoQubitGate q1 q2 g).1.length =
      (if m.flag q1 && m.flag q2 then 1 else 0) ∧
    (m.applyTwoQubitGate q1 q2 g).2 = [] := by
  unfold QCF.QuantumComputer.applyTwoQubitGate QS.QuantumModule.applyTwoQubitGate
  by_cases h1 : c.flag q1 <;> by_cases h2 : c.flag q2 <;>
    by_cases m1 : m.flag q1 <;> by_cases m2 : m.flag q2 <;>
      simp [h1, h2, m1, m2]

/-- C4 counterexample: `measurePhysical` with the duplicated request list
`[0, 0]` and one shot gives unit 0 a histogram whose buckets sum to 2, not to
`shots = 1`: a unit listed twice is read and bucketed twice per shot. -/
theorem C4_counterexample :
    ((((QCF.QuantumComputer.init 1).measurePhysical (fun _ => false) [0, 0] 1 0).2.1 0).1 +
     (((QCF.QuantumComputer.init 1).measurePhysical (fun _ => false) [0, 0] 1 0).2.1 0).2 = 1)
      ↔ False := by
  decide

/-- C4 (amended): the `measureLogical` histogram's two buckets always sum to
exactly `shots`; the `measurePhysical` histogram of a unit `u` sums to
`shots` times the number of occurrences of `u` in the request list — which is
`shots` whenever the requested units are distinct, but more when a unit is
requested twice. -/
theorem C4_histogram_conservation (c : QCF.QuantumComputer) (env : Nat → Bool)
    (group qubits : List Nat) (shots k0 u : Nat) :
    ((c.measureLogical env group shots k0).2.1).1 +
      ((c.measureLogical env group shots k0).2.1).2 = shots ∧
    ((c.measurePhysical env qubits shots k0).2.1 u).1 +
      ((c.measurePhysical env qubits shots k0).2.1 u).2 = shots * qubits.count u := by
  constructor
  · rw [QCF.QuantumComputer.measureLogical]
    rw [logicalLoop_sum env group shots k0 (0, 0)]
    simp
  · rw [QCF.QuantumComputer.measurePhysical]
    rw [physLoop_sum env qubits u shots k0 (fun _ => (0, 0))]
    simp

/-- C5: the parallel single-unit gate path resolves every target before the
call returns: over a duplicate-free target list, each calibrated target gets
exactly one pulse and one audit record and each uncalibrated target exactly
zero of each (the embedding returns the complete joined trace, mirroring the
source's join of every spawned thread). -/
theorem C5_parallel_dispatch_barrier (c : QCF.QuantumComputer) (g : String)
    (qs : List Nat) (u : Nat) (hnd : qs.Nodup) (hu : u ∈ qs) :
    QCF.countPulses (c.applyGateParallel g qs).2.1 u =
      (if c.flag u then 1 else 0) ∧
    QCF.countGateLogs (c.applyGateParallel g qs).2.2 u =
      (if c.flag u then 1 else 0) := by
  have hcount : qs.count u = 1 := List.count_eq_one_of_mem hnd hu
  rw [QCF.QuantumComputer.applyGateParallel]
  rw [countPulses_gateDispatchEvents c g u qs,
    countGateLogs_gateDispatchLogs c g u qs, hcount]
  simp

/-- C5 witness: two distinct targets, unit 0 calibrated, on a two-unit
computer. -/
theorem C5_witness :
    QCF.countPulses ((QCF.QuantumComputer.mk 2 [true, false]).applyGateParallel "X" [0, 1]).2.1 0 =
      (if (QCF.QuantumComputer.mk 2 [true, false]).flag 0 then 1 else 0) ∧
    QCF.countGateLogs ((QCF.QuantumComputer.mk 2 [true, false]).applyGateParallel "X" [0, 1]).2.2 0 =
      (if (QCF.QuantumComputer.mk 2 [true, false]).flag 0 then 1 else 0) :=
  C5_parallel_dispatch_barrier (QCF.QuantumComputer.mk 2 [true, false]) "X"
    [0, 1] 0 (by decide) (by decide)

/-- C6: the Cluster's cross-module two-unit gate issues exactly one
cross-module two-unit pulse unconditionally: the trace is the same singleton
for every cluster state, so no calibration flag of either unit is consulted
(the source routes straight to `HardwareInterface::sendTwoQubitPulse`). -/
theorem C6_cross_module_pulse_unconditional :
    ∀ (sc sc' : QS.QuantumSupercomputer) (m1 q1 m2 q2 : Nat) (g : String),
      sc.applyTwoQubitGate m1 q1 m2 q2 g =
        ([QS.MEvent.twoQubitPulse q1 m1 q2 m2 g], []) ∧
      sc.applyTwoQubitGate m1 q1 m2 q2 g = sc'.applyTwoQubitGate m1 q1 m2 q2 g :=
  fun _ _ _ _ _ _ _ => ⟨rfl, rfl⟩

/-- C7: evaluation at the failing input.  The Cluster performs no module-id
validation whatsoever: `applyGate` and `measureLogical` on an empty cluster
with `moduleID = 0` hit the unchecked `modules[moduleID]` vector access —
undefined behaviour in the C++ source (modelled `none`).  No `UnknownModule`
error value exists anywhere in the code and no error is surfaced to the
caller. -/
theorem C7_unknown_module_eval :
    QS.QuantumSupercomputer.applyGate { modules := [] } 0 "H" 0 = none ∧
    QS.QuantumSupercomputer.measureLogical { modules := [] } (fun _ => false)
      0 [0, 1, 2] 1 0 = none :=
  ⟨rfl, rfl⟩

/-- C8: evaluation at the failing input.  `calibrateQubit` performs no range
check: on a 2-unit bank, unit index 5 still triggers the Hardware Port
calibration call (and, in `QuantumComputerFull.cpp`, the audit record) before
the out-of-range flag write — undefined behaviour in the C++ source.  No
`InvalidUnitIndex` error value exists anywhere in the code. -/
theorem C8_out_of_range_eval :
    ((QCF.QuantumComputer.init 2).calibrateQubit 5).2.1 = [QCF.HwEvent.calibrate 5] ∧
    ((QCF.QuantumComputer.init 2).calibrateQubit 5).2.2 = [QCF.LogRecord.calibrate 5] ∧
    ((QS.QuantumModule.mk 0 2 [false, false]).calibrateQubit 5).2.1 =
      [QS.MEvent.calibrate 5 0] :=
  ⟨rfl, rfl, rfl⟩

/-- C9: `calibrateQubit` on an in-range unit marks it calibrated regardless
of its prior flag, invokes the Hardware Port calibration exactly once even if
the unit was already calibrated, appends exactly one audit record, raises no
error (the operation is total), and running it twice leaves the same state as
running it once. -/
theorem C9_calibrate_idempotent_monotonic (c : QCF.QuantumComputer) (q : Nat)
    (h : q < c.calibrated.length) :
    ((c.calibrateQubit q).1).flag q = true ∧
    (c.calibrateQubit q).2.1 = [QCF.HwEvent.calibrate q] ∧
    (c.calibrateQubit q).2.2 = [QCF.LogRecord.calibrate q] ∧
    (((c.calibrateQubit q).1).calibrateQubit q).1 = (c.calibrateQubit q).1 := by
  refine ⟨?_, rfl, rfl, ?_⟩
  · rw [QCF.QuantumComputer.calibrateQubit]
    exact getD_set_self c.calibrated q true false h
  · rw [QCF.QuantumComputer.calibrateQubit, QCF.QuantumComputer.calibrateQubit]
    simp [List.set_set]

/-- C9 witness: unit 0 of a two-unit computer whose unit 1 is already
calibrated. -/
theorem C9_witness :
    (((QCF.QuantumComputer.mk 2 [false, true]).calibrateQubit 0).1).flag 0 = true ∧
    ((QCF.QuantumComputer.mk 2 [false, true]).calibrateQubit 0).2.1 =
      [QCF.HwEvent.calibrate 0] ∧
    ((QCF.QuantumComputer.mk 2 [false, true]).calibrateQubit 0).2.2 =
      [QCF.LogRecord.calibrate 0] ∧
    ((((QCF.QuantumComputer.mk 2 [false, true]).calibrateQubit 0).1).calibrateQubit 0).1 =
      ((QCF.QuantumComputer.mk 2 [false, true]).calibrateQubit 0).1 :=
  C9_calibrate_idempotent_monotonic (QCF.QuantumComputer.mk 2 [false, true]) 0
    (by decide)

/-- C10: only calibration writes the calibration flags.  Gate application
(parallel single-unit and two-unit) and both measurements return the
`QuantumComputer` state exactly as received, and `calibrateQubit q` leaves
the flag of every unit other than `q` unchanged. -/
theorem C10_calibration_frame (c : QCF.QuantumComputer) (env : Nat → Bool)
    (g : String) (qs group : List Nat) (q1 q2 shots k0 q u : Nat)
    (h : u ≠ q) :
    (c.applyGateParallel g qs).1 = c ∧
    (c.applyTwoQubitGate g q1 q2).1 = c ∧
    (c.measurePhysical env qs shots k0).1 = c ∧
    (c.measureLogical env group shots k0).1 = c ∧
    ((c.calibrateQubit q).1).flag u = c.flag u := by
  refine ⟨rfl, ?_, rfl, rfl, ?_⟩
  · rw [QCF.QuantumComputer.applyTwoQubitGate]
    split <;> rfl
  · rw [QCF.QuantumComputer.calibrateQubit]
    exact getD_set_other c.calibrated q u true false h

/-- C10 witness: on a two-unit computer, calibrating unit 1 leaves unit 0's
flag unchanged and every non-calibration operation returns the state as
received. -/
theorem C10_witness :
    ((QCF.QuantumComputer.mk 2 [true, false]).applyGateParallel "H" [0, 1]).1 =
      QCF.QuantumComputer.mk 2 [true, false] ∧
    ((QCF.QuantumComputer.mk 2 [true, false]).applyTwoQubitGate "H" 0 1).1 =
      QCF.QuantumComputer.mk 2 [true, false] ∧
    ((QCF.QuantumComputer.mk 2 [true, false]).measurePhysical (fun _ => false) [0, 1] 3 0).1 =
      QCF.QuantumComputer.mk 2 [true, false] ∧
    ((QCF.QuantumComputer.mk 2 [true, false]).measureLogical (fun _ => false) [0, 1] 3 0).1 =
      QCF.QuantumComputer.mk 2 [true, false] ∧
    (((QCF.QuantumComputer.mk 2 [true, false]).calibrateQubit 1).1).flag 0 =
      (QCF.QuantumComputer.mk 2 [true, false]).flag 0 :=
  C10_calibration_frame (QCF.QuantumComputer.mk 2 [true, false])
    (fun _ => false) "H" [0, 1] [0, 1] 0 1 3 0 1 0 (by decide)
